import Mathlib

/-!
Shallow embedding of `src/config/topic_classifier.py` (Kefir-Diciembre-2025).

The Python module defines a regex-cascade topic classifier for campaign
comments (`create_topic_classifier` / inner `classify_topic`), plus a static
campaign-metadata dictionary with a shallow-copying accessor
(`CAMPAIGN_METADATA`, `get_campaign_metadata`).

Modelling conventions:
* Text is a `List Char` of Unicode code points (Python strings are code-point
  sequences).
* `str.lower()` is modelled by `pyLower`, covering ASCII letters and the
  accented Spanish uppercase letters that Python lowers; all other code points
  are fixed.  `str.split()` / `str.strip()` whitespace is modelled by
  `pyIsSpace` (ASCII whitespace).
* Each regex alternative in the source is a literal, a literal pair separated
  by `.*` (any characters on one line), or a `\b`-delimited literal; they are
  transcribed as `Pat` values, with character classes such as `b[úu]lgaros`
  expanded into their finitely many literal alternatives.  `re.search`
  truthiness is existence of a match anywhere, i.e. a disjunction over the
  alternatives of an anywhere-substring test.
-/

namespace Kefir

/-- Python whitespace (`str.split`, `str.strip`): space, tab, newline,
vertical tab, form feed, carriage return. -/
def pyIsSpace (c : Char) : Bool :=
  c == ' ' || c == '\t' || c == '\n' || c == '\x0b' || c == '\x0c' || c == '\r'

/-- Python `str.lower()` restricted to the code points this campaign data can
produce: ASCII `A`-`Z` and the accented Spanish capitals; every other code
point is left unchanged. -/
def pyLower (c : Char) : Char :=
  if 65 ≤ c.toNat ∧ c.toNat ≤ 90 then Char.ofNat (c.toNat + 32)
  else if c = 'Á' then 'á'
  else if c = 'É' then 'é'
  else if c = 'Í' then 'í'
  else if c = 'Ó' then 'ó'
  else if c = 'Ú' then 'ú'
  else if c = 'Ñ' then 'ñ'
  else if c = 'Ü' then 'ü'
  else c

/-- Does `p` occur as a prefix of `t`? -/
def isPrefixL : List Char → List Char → Bool
  | [], _ => true
  | _ :: _, [] => false
  | p :: ps, c :: cs => p == c && isPrefixL ps cs

/-- Does `p` occur as a contiguous substring of `t` (regex `re.search` on a
literal)? -/
def containsL (p : List Char) : List Char → Bool
  | [] => isPrefixL p []
  | c :: rest => isPrefixL p (c :: rest) || containsL p rest

/-- Does `p` occur after skipping any number of non-newline characters
(the `.*p` part of a `a.*b` pattern; `.` does not match a newline)? -/
def afterNoNL (p : List Char) : List Char → Bool
  | [] => isPrefixL p []
  | c :: rest => isPrefixL p (c :: rest) || (!(c == '\n') && afterNoNL p rest)

/-- `re.search` of `p ++ ".*" ++ q`: some occurrence of `p`, followed (on the
same line) by an occurrence of `q`. -/
def searchGapL (p q : List Char) : List Char → Bool
  | [] => isPrefixL p [] && afterNoNL q []
  | c :: rest =>
    (isPrefixL p (c :: rest) && afterNoNL q (List.drop p.length (c :: rest)))
      || searchGapL p q rest

/-- Python regex word character (`\w`), restricted to ASCII alphanumerics,
underscore and the accented Spanish letters occurring in this data set. -/
def isWordChar (c : Char) : Bool :=
  c.isAlphanum || c == '_' ||
  c == 'á' || c == 'é' || c == 'í' || c == 'ó' || c == 'ú' || c == 'ü' || c == 'ñ' ||
  c == 'Á' || c == 'É' || c == 'Í' || c == 'Ó' || c == 'Ú' || c == 'Ü' || c == 'Ñ'

/-- True when the text does not begin with a word character (so a `\b`
boundary follows a word character here). -/
def noWordHead : List Char → Bool
  | [] => true
  | c :: _ => !isWordChar c

/-- Scanner for `\b p \b` where the first and last characters of `p` are word
characters (as for `caro`): an occurrence of `p` not preceded and not followed
by a word character.  `prevWord` records whether the previous character was a
word character (`false` at the start of the text). -/
def wbAux (p : List Char) : Bool → List Char → Bool
  | _, [] => false
  | prevWord, c :: rest =>
    (!prevWord && isPrefixL p (c :: rest) && noWordHead (List.drop p.length (c :: rest)))
      || wbAux p (isWordChar c) rest

/-- `re.search` of `\b p \b` on the whole text. -/
def wbContains (p t : List Char) : Bool :=
  wbAux p false t

/-- One regex alternative of a content rule: a plain literal, a literal pair
separated by `.*`, or a `\b`-anchored literal. -/
inductive Pat where
  | lit : String → Pat
  | gap : String → String → Pat
  | wb : String → Pat
deriving DecidableEq

/-- Evaluate one alternative against the (lowercased) text. -/
def matchPat : Pat → List Char → Bool
  | .lit p, t => containsL p.data t
  | .gap p q, t => searchGapL p.data q.data t
  | .wb p, t => wbContains p.data t

/-- `re.search` truthiness of a disjunction of alternatives. -/
def ruleOf (ps : List Pat) (t : List Char) : Bool :=
  ps.any (fun p => matchPat p t)

/-- CATEGORÍA 1 pattern, character classes expanded. -/
def rule1Pats : List Pat :=
  [.lit "búlgaros", .lit "bulgaros", .lit "nódulos", .lit "nodulos",
   .lit "en casa", .lit "casero", .lit "artesanal",
   .lit "preparo yo", .lit "hago mi", .lit "preparo mi", .lit "vendo el cultivo",
   .lit "hecho por mi", .lit "hago yo", .lit "mejor hacer",
   .lit "tengo búlgaros", .lit "tengo bulgaros",
   .gap "regalo" "búlgaros", .gap "regalo" "bulgaros",
   .gap "fácil" "hacer", .gap "facil" "hacer",
   .gap "cómo" "prepara", .gap "como" "prepara",
   .lit "tu misma", .lit "tu mismo"]

/-- CATEGORÍA 2 pattern. -/
def rule2Pats : List Pat :=
  [.wb "caro", .lit "muy caro", .lit "tan caro", .lit "absurdamente caro",
   .lit "precio",
   .lit "economico", .lit "economica", .lit "económico", .lit "económica",
   .lit "vale", .lit "cuesta", .lit "mas barato", .lit "más barato",
   .lit "dejando pobre", .lit "paladar de pobre", .lit "sale mas", .lit "sale más"]

/-- CATEGORÍA 3 pattern. -/
def rule3Pats : List Pat :=
  [.lit "conservantes", .lit "colorantes", .lit "saborizantes", .lit "aditivos",
   .lit "almidón", .lit "almidon", .lit "preservantes",
   .lit "químicos", .lit "quimicos", .lit "azúcar", .lit "azucar",
   .lit "gelatina", .lit "procesado", .lit "procesada", .lit "industrial",
   .lit "cáncer", .lit "cancer", .lit "cero químico", .lit "cero quimico",
   .lit "fructuosa", .lit "natural", .lit "libre de"]

/-- CATEGORÍA 4 pattern. -/
def rule4Pats : List Pat :=
  [.lit "microbiota", .lit "flora intestinal", .lit "probiótic", .lit "probiotic",
   .lit "digestión", .lit "gastritis", .lit "helicobacter", .lit "pylori",
   .lit "colón", .lit "colon", .lit "irritable",
   .lit "cure", .lit "curé", .lit "me curo", .lit "me curó",
   .lit "bueno para", .lit "ayuda", .lit "salud",
   .gap "intolerante" "lactosa", .lit "lactosa", .lit "sin lactosa",
   .lit "fermentación", .lit "fermentacion", .lit "bacterias"]

/-- CATEGORÍA 5 pattern. -/
def rule5Pats : List Pat :=
  [.lit "sabe feo", .lit "sabe refeo", .lit "no me asento", .lit "no me asentó",
   .lit "rico", .lit "delicioso", .lit "no me gusta", .lit "me encanta",
   .lit "sabor", .lit "paladar", .lit "diarrea", .lit "me dio",
   .lit "mala experiencia"]

/-- CATEGORÍA 6 pattern. -/
def rule6Pats : List Pat :=
  [.lit "dejamu", .lit "pomar", .lit "san martín", .lit "san martin",
   .lit "colanta", .lit "mejor el de", .lit "otro", .lit "marca",
   .lit "alternativa", .lit "d1", .lit "ara", .lit "tienda"]

/-- CATEGORÍA 7 pattern. -/
def rule7Pats : List Pat :=
  [.lit "no ha llegado", .lit "no lo encuentro", .lit "yopal",
   .lit "dónde", .lit "donde", .lit "donde comprar", .lit "consigo",
   .lit "disponible", .lit "venden", .lit "no hay", .lit "difícil conseguir",
   .lit "cliente"]

/-- CATEGORÍA 8 pattern. -/
def rule8Pats : List Pat :=
  [.lit "receta", .lit "chía", .lit "chia", .lit "avena", .lit "granola",
   .gap "cómo" "prepara", .gap "como" "prepara",
   .lit "combino con", .lit "mezclo", .lit "preparar"]

/-- CATEGORÍA 9 pattern (`doctor[a]` is the literal `doctora`). -/
def rule9Pats : List Pat :=
  [.lit "caitlyn jenner", .lit "kardashian", .lit "pilates", .lit "mewing",
   .lit "doctora", .lit "pupi", .lit "cata", .lit "divina",
   .lit "publicidad", .lit "marketing", .lit "publicit", .lit "sponsor"]

def rule1 (t : List Char) : Bool := ruleOf rule1Pats t
def rule2 (t : List Char) : Bool := ruleOf rule2Pats t
def rule3 (t : List Char) : Bool := ruleOf rule3Pats t
def rule4 (t : List Char) : Bool := ruleOf rule4Pats t
def rule5 (t : List Char) : Bool := ruleOf rule5Pats t
def rule6 (t : List Char) : Bool := ruleOf rule6Pats t
def rule7 (t : List Char) : Bool := ruleOf rule7Pats t
def rule8 (t : List Char) : Bool := ruleOf rule8Pats t
def rule9 (t : List Char) : Bool := ruleOf rule9Pats t

/-- Membership in the two emoji code-point ranges of the character class
`[😀-🙏🌀-🗿]` (U+1F600..U+1F64F and U+1F300..U+1F5FF). -/
def isEmojiRange (c : Char) : Bool :=
  (0x1F600 ≤ c.toNat && c.toNat ≤ 0x1F64F) || (0x1F300 ≤ c.toNat && c.toNat ≤ 0x1F5FF)

/-- Number of matches of
`re.findall` of `[😀-🙏🌀-🗿]|❤️|♥️|✨|💛|💗|💞|💋|🌺|🌹|👍|🙊|🙏` over the
original (non-lowercased) comment.  In the source, `❤️` and `♥️` are the
two-code-point sequences U+2764/U+2665 followed by U+FE0F; `✨` is the single
U+2728; the remaining single-emoji alternatives all lie inside the leading
character class, so they never add matches of their own.  `re.findall` scans
left to right, consuming each match. -/
def emojiCountL : List Char → Nat
  | [] => 0
  | [c] => if isEmojiRange c || c == '✨' then 1 else 0
  | c :: d :: rest =>
    if isEmojiRange c then 1 + emojiCountL (d :: rest)
    else if (c == '❤' || c == '♥') && d == '\uFE0F' then 1 + emojiCountL rest
    else if c == '✨' then 1 + emojiCountL (d :: rest)
    else emojiCountL (d :: rest)

/-- Accumulator-style `str.split()`: split on runs of whitespace, discarding
empty tokens (`acc` is the current token, reversed). -/
def splitAux : List Char → List Char → List (List Char)
  | [], acc => if acc.isEmpty then [] else [acc.reverse]
  | c :: rest, acc =>
    if pyIsSpace c then
      if acc.isEmpty then splitAux rest [] else acc.reverse :: splitAux rest []
    else splitAux rest (c :: acc)

/-- Python `comment_lower.split()`. -/
def pySplit (t : List Char) : List (List Char) :=
  splitAux t []

/-- `len([w for w in comment_lower.split() if len(w) > 2])`. -/
def wordCountL (t : List Char) : Nat :=
  ((pySplit t).filter (fun w => 2 < w.length)).length

/-- Python `str.lstrip()` for whitespace. -/
def lstripL (t : List Char) : List Char :=
  t.dropWhile pyIsSpace

/-- Python `str.rstrip()` for whitespace. -/
def rstripL (t : List Char) : List Char :=
  (t.reverse.dropWhile pyIsSpace).reverse

/-- Python `str.strip()` for whitespace. -/
def stripL (t : List Char) : List Char :=
  rstripL (lstripL t)

/-- The whole-string alternatives of the boilerplate pattern
(`^\s*\[sticker\]\s*$`, `^xd$`, `^gracias$`, `^bendiciones$`, `^am[eé]n$`,
`^si$`, `^no$`).  Applied to a stripped string, `\s*` can only match the
empty string and `$` has no trailing-newline case, so each of these is
equality with the literal. -/
def blLits : List (List Char) :=
  ["[sticker]".data, "xd".data, "gracias".data, "bendiciones".data,
   "amén".data, "amen".data, "si".data, "no".data]

/-- The start-anchored-only alternatives of the boilerplate pattern
(`^jaja`, `^❤`, `^♥`, `^✨`; the glyphs are the bare code points
U+2764, U+2665 and U+2728 in the source). -/
def blStarts : List (List Char) :=
  ["jaja".data, "❤".data, "♥".data, "✨".data]

/-- `re.search` of the CATEGORÍA 10 boilerplate pattern against
`comment_lower.strip()`: every alternative is `^`-anchored, so this is a
whole-string match against one of `blLits` or a prefix match against one of
`blStarts`. -/
def blMatch (t : List Char) : Bool :=
  blLits.any (fun l => t == l) || blStarts.any (fun p => isPrefixL p t)

/-- CATEGORÍA 10 and 11 of `classify_topic`: the emoji/short-comment
heuristic, then the boilerplate check, then the `Otros` default.
`comment` is the original text, `comment_lower` its lowercased form. -/
def fallbackL (comment comment_lower : List Char) : String :=
  if emojiCountL comment > wordCountL comment_lower ∨ wordCountL comment_lower < 2 then
    "Fuera de Tema / Solo Emojis"
  else if blMatch (stripL comment_lower) then
    "Fuera de Tema / Solo Emojis"
  else
    "Otros"

/-- The `if`-cascade of `classify_topic` over the already-lowercased text. -/
def classifyLowerL (comment comment_lower : List Char) : String :=
  if rule1 comment_lower then "Comparación con Kéfir Casero/Artesanal"
  else if rule2 comment_lower then "Precio y Valor Percibido"
  else if rule3 comment_lower then "Ingredientes y Composición"
  else if rule4 comment_lower then "Beneficios de Salud y Experiencias"
  else if rule5 comment_lower then "Sabor y Experiencia de Consumo"
  else if rule6 comment_lower then "Competencia y Marcas Alternativas"
  else if rule7 comment_lower then "Disponibilidad y Distribución"
  else if rule8 comment_lower then "Recetas y Usos"
  else if rule9 comment_lower then "Comentarios sobre la Publicidad"
  else fallbackL comment comment_lower

/-- `classify_topic` on text input: `comment_lower = str(comment).lower()`,
then the cascade. -/
def classifyL (comment : List Char) : String :=
  classifyLowerL comment (comment.map pyLower)

/-- A Python value passed to the classifier: a string or a non-string value
that `str(...)` coerces to its textual representation. -/
inductive PyValue where
  | str : String → PyValue
  | int : Int → PyValue
  | none : PyValue
  | bool : Bool → PyValue

/-- Python `str(...)` on the modelled values. -/
def pyStr : PyValue → String
  | .str s => s
  | .int n => toString n
  | .none => "None"
  | .bool true => "True"
  | .bool false => "False"

/-- A Python runtime error raised during classification. -/
inductive PyError where
  | typeError
deriving DecidableEq

/-- CATEGORÍA 10 and 11 of `classify_topic` on a possibly non-string
argument.  The source computes the emoji count with
`re.findall(..., comment)` over the RAW argument (line 123), not over
`str(comment)`, and `re.findall` raises `TypeError` unless its argument is a
string; so a non-string comment reaching this point fails.  For a string
argument the emoji count is `emojiCountL` over its code points, and the rest
is as in `fallbackL`. -/
def fallbackPy (comment : PyValue) (comment_lower : List Char) : Except PyError String :=
  match comment with
  | .str s =>
    if emojiCountL s.data > wordCountL comment_lower ∨ wordCountL comment_lower < 2 then
      .ok "Fuera de Tema / Solo Emojis"
    else if blMatch (stripL comment_lower) then
      .ok "Fuera de Tema / Solo Emojis"
    else
      .ok "Otros"
  | _ => .error .typeError

/-- The `if`-cascade of `classify_topic` on a possibly non-string argument:
ranks 1 to 9 test `comment_lower = str(comment).lower()` and cannot fail;
the fallback may raise. -/
def classifyPyLowerL (comment : PyValue) (comment_lower : List Char) : Except PyError String :=
  if rule1 comment_lower then .ok "Comparación con Kéfir Casero/Artesanal"
  else if rule2 comment_lower then .ok "Precio y Valor Percibido"
  else if rule3 comment_lower then .ok "Ingredientes y Composición"
  else if rule4 comment_lower then .ok "Beneficios de Salud y Experiencias"
  else if rule5 comment_lower then .ok "Sabor y Experiencia de Consumo"
  else if rule6 comment_lower then .ok "Competencia y Marcas Alternativas"
  else if rule7 comment_lower then .ok "Disponibilidad y Distribución"
  else if rule8 comment_lower then .ok "Recetas y Usos"
  else if rule9 comment_lower then .ok "Comentarios sobre la Publicidad"
  else fallbackPy comment comment_lower

/-- `classify_topic` as defined in the source, on an arbitrary Python value:
only `comment_lower` is built from the coerced `str(comment)` (line 33); the
fallback's emoji count receives the raw argument (line 123), so classifying
a non-string value can raise `TypeError`. -/
def classify_topic_py (v : PyValue) : Except PyError String :=
  classifyPyLowerL v ((pyStr v).data.map pyLower)

/-- `classify_topic` applied to a string comment. -/
def classify_topic (comment : String) : String :=
  classifyL comment.data

/-- The eleven labels the cascade can return. -/
def topicLabels : List String :=
  ["Comparación con Kéfir Casero/Artesanal", "Precio y Valor Percibido",
   "Ingredientes y Composición", "Beneficios de Salud y Experiencias",
   "Sabor y Experiencia de Consumo", "Competencia y Marcas Alternativas",
   "Disponibilidad y Distribución", "Recetas y Usos",
   "Comentarios sobre la Publicidad", "Fuera de Tema / Solo Emojis", "Otros"]

/-- The boilerplate check with the fully end-anchored whole-string
alternatives removed, keeping only the start-anchored ones.  Used to state
that those alternatives are dead code. -/
def blMatchReduced (t : List Char) : Bool :=
  blStarts.any (fun p => isPrefixL p t)

/-- `fallbackL` with `blMatchReduced` in place of `blMatch`. -/
def fallbackReducedL (comment comment_lower : List Char) : String :=
  if emojiCountL comment > wordCountL comment_lower ∨ wordCountL comment_lower < 2 then
    "Fuera de Tema / Solo Emojis"
  else if blMatchReduced (stripL comment_lower) then
    "Fuera de Tema / Solo Emojis"
  else
    "Otros"

/-- The cascade of `classify_topic` with the reduced boilerplate check. -/
def classifyReducedLowerL (comment comment_lower : List Char) : String :=
  if rule1 comment_lower then "Comparación con Kéfir Casero/Artesanal"
  else if rule2 comment_lower then "Precio y Valor Percibido"
  else if rule3 comment_lower then "Ingredientes y Composición"
  else if rule4 comment_lower then "Beneficios de Salud y Experiencias"
  else if rule5 comment_lower then "Sabor y Experiencia de Consumo"
  else if rule6 comment_lower then "Competencia y Marcas Alternativas"
  else if rule7 comment_lower then "Disponibilidad y Distribución"
  else if rule8 comment_lower then "Recetas y Usos"
  else if rule9 comment_lower then "Comentarios sobre la Publicidad"
  else fallbackReducedL comment comment_lower

/-- The variant classifier whose boilerplate sub-check drops the whole-string
alternatives. -/
def classify_topic_reduced (comment : String) : String :=
  classifyReducedLowerL comment.data (comment.data.map pyLower)

/-- A pattern alternative whose mandatory leading literal contains at least
one non-whitespace character (true of every alternative in the source). -/
def patHasNonSpace : Pat → Bool
  | .lit p => p.data.any (fun c => ! pyIsSpace c)
  | .gap p _ => p.data.any (fun c => ! pyIsSpace c)
  | .wb p => p.data.any (fun c => ! pyIsSpace c)

/-- The `categories` list of `CAMPAIGN_METADATA` as written in the source. -/
def initialCategories : List String :=
  ["Preguntas sobre el Producto", "Comparación con Kéfir Casero/Artesanal",
   "Ingredientes y Salud", "Competencia y Disponibilidad",
   "Opinión General del Producto", "Fuera de Tema / No Relevante", "Otros"]

/-- Heap of mutable Python list objects, indexed by reference. -/
structure Heap where
  lists : Nat → List String

/-- A campaign-metadata dictionary.  As in Python, the nested `categories`
value is a reference to a heap-allocated list; the remaining entries are
immutable strings held directly. -/
structure MetaDict where
  campaign_name : String
  product : String
  categoriesRef : Nat
  version : String
  last_updated : String
deriving DecidableEq

/-- The module-level `CAMPAIGN_METADATA` dictionary; its categories list
lives at heap reference `0`. -/
def CAMPAIGN_METADATA : MetaDict :=
  { campaign_name := "Alpina - Kéfir", product := "Kéfir Alpina",
    categoriesRef := 0, version := "1.0", last_updated := "2025-11-20" }

/-- The heap at module load: reference `0` holds the categories list. -/
def initHeap : Heap :=
  ⟨fun r => if r = 0 then initialCategories else []⟩

/-- Python `dict.copy()`: a shallow copy.  The top-level entries are
duplicated, and the nested list reference is copied as a reference, so the
list object itself is shared. -/
def dictCopy (d : MetaDict) : MetaDict :=
  { campaign_name := d.campaign_name, product := d.product,
    categoriesRef := d.categoriesRef, version := d.version,
    last_updated := d.last_updated }

/-- `get_campaign_metadata()`: returns `CAMPAIGN_METADATA.copy()`. -/
def get_campaign_metadata : MetaDict :=
  dictCopy CAMPAIGN_METADATA

/-- In-place mutation of the list object at reference `r` (for example
`d["categories"].insert(0, x)` through a returned dictionary `d`). -/
def writeList (h : Heap) (r : Nat) (v : List String) : Heap :=
  ⟨fun n => if n = r then v else h.lists n⟩

/-- Reading the `categories` entry of a dictionary dereferences the shared
list object in the heap. -/
def readCategories (h : Heap) (d : MetaDict) : List String :=
  h.lists d.categoriesRef

/-- Both branches of an `if` lie in a list when each branch does. -/
theorem ite_mem_list {α : Type} {c : Prop} [Decidable c] {a b : α} {l : List α}
    (ha : a ∈ l) (hb : b ∈ l) : (if c then a else b) ∈ l := by
  by_cases h : c
  · rw [if_pos h]; exact ha
  · rw [if_neg h]; exact hb

/-- Every branch of the cascade returns one of the eleven labels. -/
theorem classifyLowerL_mem (o t : List Char) : classifyLowerL o t ∈ topicLabels := by
  unfold classifyLowerL fallbackL
  apply ite_mem_list (by decide)
  apply ite_mem_list (by decide)
  apply ite_mem_list (by decide)
  apply ite_mem_list (by decide)
  apply ite_mem_list (by decide)
  apply ite_mem_list (by decide)
  apply ite_mem_list (by decide)
  apply ite_mem_list (by decide)
  apply ite_mem_list (by decide)
  apply ite_mem_list (by decide)
  apply ite_mem_list (by decide)
  decide

/-- On string arguments the `PyValue` classifier never raises and agrees
with the string classifier. -/
theorem classifyPy_str (s : String) :
    classify_topic_py (.str s) = .ok (classify_topic s) := by
  show classifyPyLowerL (.str s) (s.data.map pyLower)
      = .ok (classifyLowerL s.data (s.data.map pyLower))
  unfold classifyPyLowerL classifyLowerL
  rw [apply_ite Except.ok, apply_ite Except.ok, apply_ite Except.ok,
      apply_ite Except.ok, apply_ite Except.ok, apply_ite Except.ok,
      apply_ite Except.ok, apply_ite Except.ok, apply_ite Except.ok]
  refine ite_congr rfl (fun _ => rfl) (fun _ => ?_)
  refine ite_congr rfl (fun _ => rfl) (fun _ => ?_)
  refine ite_congr rfl (fun _ => rfl) (fun _ => ?_)
  refine ite_congr rfl (fun _ => rfl) (fun _ => ?_)
  refine ite_congr rfl (fun _ => rfl) (fun _ => ?_)
  refine ite_congr rfl (fun _ => rfl) (fun _ => ?_)
  refine ite_congr rfl (fun _ => rfl) (fun _ => ?_)
  refine ite_congr rfl (fun _ => rfl) (fun _ => ?_)
  refine ite_congr rfl (fun _ => rfl) (fun _ => ?_)
  show fallbackPy (.str s) (s.data.map pyLower)
      = .ok (fallbackL s.data (s.data.map pyLower))
  unfold fallbackPy fallbackL
  rw [apply_ite Except.ok, apply_ite Except.ok]

/-- Claim C1 is violated by the code: the fallback's emoji count is computed
over the raw, uncoerced argument (`re.findall(..., comment)`, source line
123), so a non-string input that matches no content rule — the integer 5, or
None — raises `TypeError` instead of returning a topic.  String inputs (for
which the raw argument is already a string) always return a topic and agree
with the string classifier; the coercion at line 33 covers only the content
rules and the word count. -/
theorem c1_typeerror_on_nonstring :
    classify_topic_py (.int 5) = .error .typeError ∧
    classify_topic_py .none = .error .typeError ∧
    ∀ s : String, classify_topic_py (.str s) = .ok (classify_topic s) :=
  ⟨rfl, rfl, classifyPy_str⟩

/-- Claim C4: for every string input the classifier returns a non-empty
string drawn from the fixed eleven-label set (and, being a function, exactly
one label per call). -/
theorem c4_total (s : String) :
    classify_topic s ∈ topicLabels ∧ classify_topic s ≠ "" := by
  have h : classify_topic s ∈ topicLabels := classifyLowerL_mem _ _
  refine ⟨h, ?_⟩
  intro he
  rw [he] at h
  exact absurd h (by decide)

/-- Claim C5: an input whose normalized text satisfies the rank-1
homemade/artisanal predicate and any lower-ranked predicate is classified as
rank 1, never as a lower-ranked topic: the cascade stops at the first
matching rank. -/
theorem c5_priority (s : String)
    (h1 : rule1 (s.data.map pyLower) = true)
    (_hlow : rule2 (s.data.map pyLower) = true ∨ rule3 (s.data.map pyLower) = true ∨
            rule4 (s.data.map pyLower) = true ∨ rule5 (s.data.map pyLower) = true ∨
            rule6 (s.data.map pyLower) = true ∨ rule7 (s.data.map pyLower) = true ∨
            rule8 (s.data.map pyLower) = true ∨ rule9 (s.data.map pyLower) = true) :
    classify_topic s = "Comparación con Kéfir Casero/Artesanal" := by
  unfold classify_topic classifyL classifyLowerL
  rw [if_pos h1]

/-- Witness for C5 at the concrete comment `casero caro`, which matches both
the rank-1 and the rank-2 predicates. -/
theorem c5_priority_witness :
    (rule1 ("casero caro".data.map pyLower) = true ∧
     rule2 ("casero caro".data.map pyLower) = true) ∧
    classify_topic "casero caro" = "Comparación con Kéfir Casero/Artesanal" :=
  ⟨by decide, c5_priority "casero caro" (by decide) (Or.inl (by decide))⟩

/-- Claim C6: the literal scenario input is classified as availability and
distribution. -/
theorem c6_literal :
    classify_topic "¿Dónde puedo comprar este producto?" = "Disponibilidad y Distribución" := by
  decide

/-- Counterexample to claim C7 as stated: on the input `"❤️❤️"` the
substantive-word count is not 0 — the single token `❤️❤️` has four code
points, which exceeds the length-2 threshold, so the token is counted. -/
theorem c7_counterexample :
    ¬ wordCountL ("❤️❤️".data.map pyLower) = 0 := by
  decide

/-- Claim C7 amended: classifying `"❤️❤️"` returns the off-topic/emoji label
because its emoji count 2 exceeds its substantive-word count, which is 1
(not 0: the single token has four code points, so it is counted). -/
theorem c7_amended_thm :
    classify_topic "❤️❤️" = "Fuera de Tema / Solo Emojis" ∧
    emojiCountL "❤️❤️".data = 2 ∧
    wordCountL ("❤️❤️".data.map pyLower) = 1 := by
  refine ⟨by decide, by decide, by decide⟩

/-- Counterexample to claim C2 as stated: `get_campaign_metadata` returns a
shallow copy, so mutating the nested categories list through the object
returned by a first call changes the categories value read through the object
returned by a second call. -/
theorem c2_counterexample :
    readCategories
      (writeList initHeap get_campaign_metadata.categoriesRef
        ("Nueva" :: initialCategories))
      get_campaign_metadata ≠ initialCategories := by
  decide

/-- Claim C2 amended: each access returns a fresh top-level dictionary, so
top-level mutation of the returned object is isolated from later calls; but
the copy is shallow — the nested categories list is shared by reference, so
an in-place mutation of it through the first returned object is visible
through the object returned by a second call. -/
theorem c2_amended_thm :
    ({ get_campaign_metadata with version := "2.0" }.version = "2.0" ∧
      get_campaign_metadata.version = "1.0") ∧
    get_campaign_metadata.categoriesRef = CAMPAIGN_METADATA.categoriesRef ∧
    readCategories
      (writeList initHeap get_campaign_metadata.categoriesRef
        ("Nueva" :: initialCategories))
      get_campaign_metadata = "Nueva" :: initialCategories := by
  refine ⟨⟨rfl, rfl⟩, rfl, by decide⟩

/-- Counterexample to claim C3 as stated: the comment
`jajaja buenos tiempos aquellos` contains the boilerplate phrase `jaja` only
as a proper prefix of longer substantive text (four substantive words, no
emoji, so the emoji/short-content check does not fire), yet the boilerplate
sub-check matches via its start-only anchor `^jaja` and the comment is
classified as off-topic/emoji-only. -/
theorem c3_counterexample :
    blMatch (stripL ("jajaja buenos tiempos aquellos".data.map pyLower)) = true ∧
    emojiCountL "jajaja buenos tiempos aquellos".data = 0 ∧
    wordCountL ("jajaja buenos tiempos aquellos".data.map pyLower) = 4 ∧
    classify_topic "jajaja buenos tiempos aquellos" = "Fuera de Tema / Solo Emojis" := by
  refine ⟨by decide, by decide, by decide, by decide⟩

/-- Claim C3 amended: only the `[sticker]`, `xd`, `gracias`, `bendiciones`,
`amén`, `si`, `no` alternatives of the boilerplate sub-check are anchored at
both ends; `jaja` and the heart/sparkle glyphs are start-anchored only.
Consequently a comment whose trimmed, lowercased text neither begins with one
of those prefixes nor is exactly one of the whole-string alternatives — in
particular one that merely contains a boilerplate phrase mid-sentence — is
never matched by this sub-check. -/
theorem c3_amended_thm (t : List Char)
    (h1 : isPrefixL "jaja".data t = false)
    (h2 : isPrefixL "❤".data t = false)
    (h3 : isPrefixL "♥".data t = false)
    (h4 : isPrefixL "✨".data t = false)
    (h5 : t ∉ blLits) :
    blMatch t = false := by
  have ha : blLits.any (fun l => t == l) = false := by
    rw [List.any_eq_false]
    intro l hl
    simp only [beq_iff_eq]
    rintro rfl
    exact h5 hl
  have hb : blStarts.any (fun p => isPrefixL p t) = false := by
    simp only [blStarts, List.any_cons, List.any_nil, h1, h2, h3, h4,
      Bool.or_false, Bool.or_self]
  simp only [blMatch, ha, hb, Bool.or_self]

/-- Witness for the amended C3 at a comment containing `gracias`
mid-sentence: the boilerplate sub-check does not match it. -/
theorem c3_amended_witness :
    (isPrefixL "jaja".data (stripL ("muchas gracias por la información".data.map pyLower)) = false ∧
     isPrefixL "❤".data (stripL ("muchas gracias por la información".data.map pyLower)) = false ∧
     isPrefixL "♥".data (stripL ("muchas gracias por la información".data.map pyLower)) = false ∧
     isPrefixL "✨".data (stripL ("muchas gracias por la información".data.map pyLower)) = false ∧
     stripL ("muchas gracias por la información".data.map pyLower) ∉ blLits) ∧
    blMatch (stripL ("muchas gracias por la información".data.map pyLower)) = false :=
  ⟨⟨by decide, by decide, by decide, by decide, by decide⟩,
   c3_amended_thm _ (by decide) (by decide) (by decide) (by decide) (by decide)⟩

/-- Claim C10: the rank-6 pattern contains the bare unanchored alternative
`ara`, so any input whose lowercased text contains `ara` as a substring (for
example inside `para`) and matches none of ranks 1 to 5 is classified as
competing brands, and can never reach the fallback heuristic or `Otros`. -/
theorem c10_ara (s : String)
    (h : containsL "ara".data (s.data.map pyLower) = true)
    (h1 : rule1 (s.data.map pyLower) = false)
    (h2 : rule2 (s.data.map pyLower) = false)
    (h3 : rule3 (s.data.map pyLower) = false)
    (h4 : rule4 (s.data.map pyLower) = false)
    (h5 : rule5 (s.data.map pyLower) = false) :
    classify_topic s = "Competencia y Marcas Alternativas" := by
  have h6 : rule6 (s.data.map pyLower) = true := by
    unfold rule6 ruleOf
    rw [List.any_eq_true]
    exact ⟨.lit "ara", by decide, h⟩
  unfold classify_topic classifyL classifyLowerL
  rw [if_neg (by rw [h1]; exact Bool.false_ne_true),
      if_neg (by rw [h2]; exact Bool.false_ne_true),
      if_neg (by rw [h3]; exact Bool.false_ne_true),
      if_neg (by rw [h4]; exact Bool.false_ne_true),
      if_neg (by rw [h5]; exact Bool.false_ne_true),
      if_pos h6]

/-- Witness for C10 at the concrete comment `para mi abuela`: it contains
`ara` inside `para`, matches none of ranks 1 to 5, and is classified as
competing brands. -/
theorem c10_ara_witness :
    (containsL "ara".data ("para mi abuela".data.map pyLower) = true ∧
     rule1 ("para mi abuela".data.map pyLower) = false ∧
     rule2 ("para mi abuela".data.map pyLower) = false ∧
     rule3 ("para mi abuela".data.map pyLower) = false ∧
     rule4 ("para mi abuela".data.map pyLower) = false ∧
     rule5 ("para mi abuela".data.map pyLower) = false) ∧
    classify_topic "para mi abuela" = "Competencia y Marcas Alternativas" :=
  ⟨⟨by decide, by decide, by decide, by decide, by decide, by decide⟩,
   c10_ara "para mi abuela" (by decide) (by decide) (by decide) (by decide)
     (by decide) (by decide)⟩

/-- A matching prefix only uses characters of the text. -/
theorem isPrefixL_subset : ∀ {p t : List Char}, isPrefixL p t = true → ∀ c ∈ p, c ∈ t := by
  intro p
  induction p with
  | nil =>
    intro t _ c hc
    exact absurd hc (List.not_mem_nil c)
  | cons a as ih =>
    intro t h c hc
    cases t with
    | nil => simp [isPrefixL] at h
    | cons b bs =>
      simp only [isPrefixL, Bool.and_eq_true, beq_iff_eq] at h
      rcases List.mem_cons.mp hc with hca | hc'
      · subst hca; rw [h.1]; exact List.mem_cons_self b bs
      · exact List.mem_cons_of_mem b (ih h.2 c hc')

/-- A matching substring only uses characters of the text. -/
theorem containsL_subset : ∀ {t p : List Char}, containsL p t = true → ∀ c ∈ p, c ∈ t := by
  intro t
  induction t with
  | nil =>
    intro p h c hc
    simp only [containsL] at h
    exact isPrefixL_subset h c hc
  | cons b bs ih =>
    intro p h c hc
    simp only [containsL, Bool.or_eq_true] at h
    rcases h with h | h
    · exact isPrefixL_subset h c hc
    · exact List.mem_cons_of_mem b (ih h c hc)

/-- The leading literal of a matching gap pattern only uses characters of the
text. -/
theorem searchGapL_subset : ∀ {t p q : List Char}, searchGapL p q t = true → ∀ c ∈ p, c ∈ t := by
  intro t
  induction t with
  | nil =>
    intro p q h c hc
    simp only [searchGapL, Bool.and_eq_true] at h
    exact isPrefixL_subset h.1 c hc
  | cons b bs ih =>
    intro p q h c hc
    simp only [searchGapL, Bool.or_eq_true, Bool.and_eq_true] at h
    rcases h with ⟨h, _⟩ | h
    · exact isPrefixL_subset h c hc
    · exact List.mem_cons_of_mem b (ih h c hc)

/-- The literal of a matching word-boundary pattern only uses characters of
the text. -/
theorem wbAux_subset : ∀ {t p : List Char} {b : Bool}, wbAux p b t = true → ∀ c ∈ p, c ∈ t := by
  intro t
  induction t with
  | nil =>
    intro p b h c hc
    simp [wbAux] at h
  | cons d ds ih =>
    intro p b h c hc
    simp only [wbAux, Bool.or_eq_true, Bool.and_eq_true] at h
    rcases h with ⟨⟨_, h⟩, _⟩ | h
    · exact isPrefixL_subset h c hc
    · exact List.mem_cons_of_mem d (ih h c hc)

/-- On all-whitespace text, no alternative containing a non-whitespace
character matches. -/
theorem matchPat_eq_false_of_allSpace {t : List Char}
    (hs : ∀ c ∈ t, pyIsSpace c = true) {p : Pat}
    (hp : patHasNonSpace p = true) : matchPat p t = false := by
  cases p with
  | lit s =>
    simp only [patHasNonSpace, List.any_eq_true, Bool.not_eq_true'] at hp
    obtain ⟨c, hc, hcs⟩ := hp
    cases hm : matchPat (.lit s) t
    · rfl
    · rw [hs c (containsL_subset hm c hc)] at hcs
      exact Bool.noConfusion hcs
  | gap s q =>
    simp only [patHasNonSpace, List.any_eq_true, Bool.not_eq_true'] at hp
    obtain ⟨c, hc, hcs⟩ := hp
    cases hm : matchPat (.gap s q) t
    · rfl
    · rw [hs c (searchGapL_subset hm c hc)] at hcs
      exact Bool.noConfusion hcs
  | wb s =>
    simp only [patHasNonSpace, List.any_eq_true, Bool.not_eq_true'] at hp
    obtain ⟨c, hc, hcs⟩ := hp
    cases hm : matchPat (.wb s) t
    · rfl
    · rw [hs c (wbAux_subset hm c hc)] at hcs
      exact Bool.noConfusion hcs

/-- On all-whitespace text, a rule all of whose alternatives contain a
non-whitespace character is false. -/
theorem ruleOf_eq_false_of_allSpace {t : List Char}
    (hs : ∀ c ∈ t, pyIsSpace c = true) {ps : List Pat}
    (hp : ps.all patHasNonSpace = true) : ruleOf ps t = false := by
  cases hr : ruleOf ps t
  · rfl
  · exfalso
    unfold ruleOf at hr
    obtain ⟨p, hmem, hp2⟩ := List.any_eq_true.mp hr
    rw [matchPat_eq_false_of_allSpace hs (List.all_eq_true.mp hp p hmem)] at hp2
    exact Bool.noConfusion hp2

/-- `split()` of all-whitespace text yields no tokens. -/
theorem splitAux_nil_of_allSpace : ∀ {l : List Char},
    (∀ c ∈ l, pyIsSpace c = true) → splitAux l [] = [] := by
  intro l
  induction l with
  | nil => intro _; rfl
  | cons c rest ih =>
    intro h
    have hc := h c (List.mem_cons_self c rest)
    simp only [splitAux, hc, if_pos, List.isEmpty_nil, if_true]
    exact ih (fun d hd => h d (List.mem_cons_of_mem c hd))

/-- Lowercasing fixes whitespace characters. -/
theorem pyLower_of_space {c : Char} (h : pyIsSpace c = true) : pyLower c = c := by
  unfold pyLower
  split_ifs with h1 h2 h3 h4 h5 h6 h7 h8
  · exfalso
    simp only [pyIsSpace, Bool.or_eq_true, beq_iff_eq] at h
    rcases h with ((((h | h) | h) | h) | h) | h <;> subst h <;> exact absurd h1 (by decide)
  all_goals first | rfl | (subst_vars; exact absurd h (by decide))

/-- Lowercasing preserves the all-whitespace property. -/
theorem allSpace_map_pyLower {l : List Char}
    (h : ∀ c ∈ l, pyIsSpace c = true) :
    ∀ c ∈ l.map pyLower, pyIsSpace c = true := by
  intro c hc
  obtain ⟨a, ha, rfl⟩ := List.mem_map.mp hc
  rw [pyLower_of_space (h a ha)]
  exact h a ha

/-- Claim C8: an empty or all-whitespace input matches none of the content
rules (ranks 1 to 9) and is classified off-topic/emoji-only through the
fallback branch in which the substantive-word count is below 2. -/
theorem c8_whitespace (s : String)
    (h : ∀ c ∈ s.data, pyIsSpace c = true) :
    (rule1 (s.data.map pyLower) = false ∧ rule2 (s.data.map pyLower) = false ∧
     rule3 (s.data.map pyLower) = false ∧ rule4 (s.data.map pyLower) = false ∧
     rule5 (s.data.map pyLower) = false ∧ rule6 (s.data.map pyLower) = false ∧
     rule7 (s.data.map pyLower) = false ∧ rule8 (s.data.map pyLower) = false ∧
     rule9 (s.data.map pyLower) = false) ∧
    wordCountL (s.data.map pyLower) < 2 ∧
    classify_topic s = "Fuera de Tema / Solo Emojis" := by
  have hs := allSpace_map_pyLower h
  have h1 : rule1 (s.data.map pyLower) = false := ruleOf_eq_false_of_allSpace hs (by decide)
  have h2 : rule2 (s.data.map pyLower) = false := ruleOf_eq_false_of_allSpace hs (by decide)
  have h3 : rule3 (s.data.map pyLower) = false := ruleOf_eq_false_of_allSpace hs (by decide)
  have h4 : rule4 (s.data.map pyLower) = false := ruleOf_eq_false_of_allSpace hs (by decide)
  have h5 : rule5 (s.data.map pyLower) = false := ruleOf_eq_false_of_allSpace hs (by decide)
  have h6 : rule6 (s.data.map pyLower) = false := ruleOf_eq_false_of_allSpace hs (by decide)
  have h7 : rule7 (s.data.map pyLower) = false := ruleOf_eq_false_of_allSpace hs (by decide)
  have h8 : rule8 (s.data.map pyLower) = false := ruleOf_eq_false_of_allSpace hs (by decide)
  have h9 : rule9 (s.data.map pyLower) = false := ruleOf_eq_false_of_allSpace hs (by decide)
  have hwc : wordCountL (s.data.map pyLower) = 0 := by
    unfold wordCountL pySplit
    rw [splitAux_nil_of_allSpace hs]
    rfl
  refine ⟨⟨h1, h2, h3, h4, h5, h6, h7, h8, h9⟩, by rw [hwc]; decide, ?_⟩
  unfold classify_topic classifyL classifyLowerL fallbackL
  rw [if_neg (by rw [h1]; exact Bool.false_ne_true),
      if_neg (by rw [h2]; exact Bool.false_ne_true),
      if_neg (by rw [h3]; exact Bool.false_ne_true),
      if_neg (by rw [h4]; exact Bool.false_ne_true),
      if_neg (by rw [h5]; exact Bool.false_ne_true),
      if_neg (by rw [h6]; exact Bool.false_ne_true),
      if_neg (by rw [h7]; exact Bool.false_ne_true),
      if_neg (by rw [h8]; exact Bool.false_ne_true),
      if_neg (by rw [h9]; exact Bool.false_ne_true),
      if_pos (Or.inr (by rw [hwc]; decide))]

/-- Witness for C8 at the concrete whitespace-only input. -/
theorem c8_whitespace_witness :
    (∀ c ∈ " \t ".data, pyIsSpace c = true) ∧
    ((rule1 (" \t ".data.map pyLower) = false ∧ rule2 (" \t ".data.map pyLower) = false ∧
      rule3 (" \t ".data.map pyLower) = false ∧ rule4 (" \t ".data.map pyLower) = false ∧
      rule5 (" \t ".data.map pyLower) = false ∧ rule6 (" \t ".data.map pyLower) = false ∧
      rule7 (" \t ".data.map pyLower) = false ∧ rule8 (" \t ".data.map pyLower) = false ∧
      rule9 (" \t ".data.map pyLower) = false) ∧
     wordCountL (" \t ".data.map pyLower) < 2 ∧
     classify_topic " \t " = "Fuera de Tema / Solo Emojis") :=
  ⟨by decide, c8_whitespace " \t " (by decide)⟩

/-- Leading whitespace does not change `split()`. -/
theorem pySplit_lstrip : ∀ (t : List Char), pySplit (lstripL t) = pySplit t := by
  intro t
  induction t with
  | nil => rfl
  | cons c rest ih =>
    by_cases hc : pyIsSpace c = true
    · have hl : lstripL (c :: rest) = lstripL rest := by
        simp [lstripL, List.dropWhile_cons, hc]
      rw [hl, ih]
      show pySplit rest = pySplit (c :: rest)
      unfold pySplit
      simp [splitAux, hc]
    · have hl : lstripL (c :: rest) = c :: rest := by
        simp [lstripL, List.dropWhile_cons, hc]
      rw [hl]

/-- Any list is its right-strip followed by trailing whitespace. -/
theorem rstripL_spaces_decomp (t : List Char) :
    t = rstripL t ++ (t.reverse.takeWhile pyIsSpace).reverse ∧
    ∀ c ∈ (t.reverse.takeWhile pyIsSpace).reverse, pyIsSpace c = true := by
  constructor
  · conv_lhs => rw [← List.reverse_reverse t,
      ← List.takeWhile_append_dropWhile (p := pyIsSpace) (l := t.reverse),
      List.reverse_append]
    rfl
  · intro c hc
    rw [List.mem_reverse] at hc
    exact List.mem_takeWhile_imp hc

/-- `splitAux` on all-whitespace input only flushes the accumulator. -/
theorem splitAux_allSpace : ∀ (w acc : List Char),
    (∀ c ∈ w, pyIsSpace c = true) →
    splitAux w acc = if acc.isEmpty then [] else [acc.reverse] := by
  intro w
  induction w with
  | nil => intro acc _; rfl
  | cons c rest ih =>
    intro acc h
    have hc := h c (List.mem_cons_self c rest)
    have hrest : ∀ d ∈ rest, pyIsSpace d = true :=
      fun d hd => h d (List.mem_cons_of_mem c hd)
    simp only [splitAux, hc, if_true]
    rw [ih [] hrest]
    cases acc <;> simp

/-- `splitAux` on a whitespace-free token followed by trailing whitespace
gives the accumulator joined with the token (the two not both empty). -/
theorem splitAux_token : ∀ (t acc w : List Char),
    (∀ c ∈ t, pyIsSpace c = false) → (∀ c ∈ w, pyIsSpace c = true) →
    (acc.isEmpty = false ∨ t ≠ []) →
    splitAux (t ++ w) acc = [acc.reverse ++ t] := by
  intro t
  induction t with
  | nil =>
    intro acc w _ hw hne
    have hacc : acc.isEmpty = false := by
      rcases hne with h | h
      · exact h
      · exact absurd rfl h
    rw [List.nil_append, splitAux_allSpace w acc hw, hacc]
    simp
  | cons c t' ih =>
    intro acc w ht hw _
    have hc : pyIsSpace c = false := ht c (List.mem_cons_self c t')
    have ht' : ∀ d ∈ t', pyIsSpace d = false :=
      fun d hd => ht d (List.mem_cons_of_mem c hd)
    rw [List.cons_append]
    simp only [splitAux, hc]
    rw [ih (c :: acc) w ht' hw (Or.inl (by simp))]
    simp

/-- When the stripped text is a nonempty whitespace-free token, `split()`
returns exactly that token. -/
theorem pySplit_eq_single_strip (t : List Char)
    (hne : stripL t ≠ [])
    (hns : ∀ c ∈ stripL t, pyIsSpace c = false) :
    pySplit t = [stripL t] := by
  rw [← pySplit_lstrip t]
  obtain ⟨hdec, hsp⟩ := rstripL_spaces_decomp (lstripL t)
  show pySplit (lstripL t) = [stripL t]
  unfold pySplit
  rw [show lstripL t = stripL t ++ ((lstripL t).reverse.takeWhile pyIsSpace).reverse from hdec,
    splitAux_token (stripL t) [] _ hns hsp (Or.inr hne)]
  simp

/-- A comment whose stripped lowercased text equals one of the whole-string
boilerplate literals has substantive-word count below 2. -/
theorem wordCountL_lt_two_of_strip_mem {t : List Char}
    (h : stripL t ∈ blLits) : wordCountL t < 2 := by
  have hkey : pySplit t = [stripL t] := by
    apply pySplit_eq_single_strip
    · simp only [blLits, List.mem_cons, List.not_mem_nil, or_false] at h
      rcases h with h|h|h|h|h|h|h|h <;> rw [h] <;> decide
    · simp only [blLits, List.mem_cons, List.not_mem_nil, or_false] at h
      rcases h with h|h|h|h|h|h|h|h <;> rw [h] <;> decide
  unfold wordCountL
  rw [hkey]
  have hle := List.length_filter_le (fun w => decide (2 < w.length)) [stripL t]
  simp only [List.length_cons, List.length_nil] at hle
  omega

/-- The original fallback and the reduced fallback agree on all inputs: when
the boilerplate check is reached the substantive-word count is at least 2,
so none of the whole-string alternatives can match. -/
theorem fallbackL_eq_reduced (o t : List Char) : fallbackL o t = fallbackReducedL o t := by
  unfold fallbackL fallbackReducedL
  by_cases hcond : emojiCountL o > wordCountL t ∨ wordCountL t < 2
  · rw [if_pos hcond, if_pos hcond]
  · rw [if_neg hcond, if_neg hcond]
    have hwc : ¬ wordCountL t < 2 := fun hlt => hcond (Or.inr hlt)
    have hlits : blLits.any (fun l => stripL t == l) = false := by
      rw [List.any_eq_false]
      intro l hl
      simp only [beq_iff_eq]
      intro heq
      exact hwc (wordCountL_lt_two_of_strip_mem (by rw [heq]; exact hl))
    have hbl : blMatch (stripL t) = blMatchReduced (stripL t) := by
      unfold blMatch blMatchReduced
      rw [hlits, Bool.false_or]
    rw [hbl]

/-- Claim C9: the fully end-anchored boilerplate alternatives are dead code.
Any text matching one of them is a single whitespace-delimited token, so its
substantive-word count is below 2 and the preceding emoji/short-content
check already returns the off-topic label; the classifier variant with those
alternatives removed is extensionally equal to the original on all string
inputs. -/
theorem c9_dead_alternatives (s : String) :
    classify_topic s = classify_topic_reduced s := by
  unfold classify_topic classifyL classify_topic_reduced classifyLowerL classifyReducedLowerL
  refine ite_congr rfl (fun _ => rfl) (fun _ => ?_)
  refine ite_congr rfl (fun _ => rfl) (fun _ => ?_)
  refine ite_congr rfl (fun _ => rfl) (fun _ => ?_)
  refine ite_congr rfl (fun _ => rfl) (fun _ => ?_)
  refine ite_congr rfl (fun _ => rfl) (fun _ => ?_)
  refine ite_congr rfl (fun _ => rfl) (fun _ => ?_)
  refine ite_congr rfl (fun _ => rfl) (fun _ => ?_)
  refine ite_congr rfl (fun _ => rfl) (fun _ => ?_)
  refine ite_congr rfl (fun _ => rfl) (fun _ => ?_)
  exact fallbackL_eq_reduced _ _

end Kefir

